import Mathlib

/-!
Shallow embedding of `src/mistral_llm.py` (class `CustomMistralLLM`).

The Python class has three fields (`endpoint`, `auth_token`, `temperature`),
one generation method `_call(prompt, stop=None, **kwargs)` and a read-only
accessor `_identifying_params`.  `_call` builds headers and the JSON body
`{"prompt": prompt}` (the braces here are in a comment, describing the source),
POSTs them with TLS verification disabled, calls `response.raise_for_status()`,
parses the body with `response.json()`, and extracts
`response_json["outputs"][0]["text"].strip()` when the key `outputs` is present
with positive `len`, otherwise returns the literal fallback string.

We embed the HTTP exchange at its observable boundary: the network is a
function from the request the adapter builds to an `HttpResponse`; the
response carries its status code, its raw body text, and the outcome of the
external JSON parse (`parsed = none` models a body `response.json()` rejects).
Python runtime errors (`requests.HTTPError`, JSON decode errors, `KeyError`,
`IndexError`, `TypeError`, `AttributeError`) are modelled by the `PyError`
type, and each fallible Python primitive used on lines 30-36 of the source is
embedded as an `Except PyError`-valued function with Python's semantics.
-/

/-- JSON values, as produced by the external JSON parser.  Objects are
association lists with (by the parser's construction) pairwise distinct
string keys. -/
inductive Json where
  | null : Json
  | jbool : Bool → Json
  | jnum : Rat → Json
  | jstr : String → Json
  | jarr : List Json → Json
  | jobj : List (String × Json) → Json

/-- Python runtime errors that can escape `_call`. -/
inductive PyError where
  | httpError (status : Nat) (body : String) : PyError
  | jsonError : PyError
  | keyError (k : String) : PyError
  | keyErrorIdx (i : Nat) : PyError
  | indexError : PyError
  | typeError : PyError
  | attributeError : PyError
deriving DecidableEq

/-- The adapter's configuration fields (source lines 8-10).  The Python
default for `temperature` is `0.7`. -/
structure Config where
  endpoint : String
  auth_token : String
  temperature : Rat := 0.7
deriving DecidableEq

/-- The outgoing HTTP POST as the adapter assembles it (source lines 22-29):
target URL, header list, JSON body, and the `verify` flag passed to
`requests.post`. -/
structure HttpRequest where
  url : String
  headers : List (String × String)
  body : Json
  verify : Bool

/-- An HTTP response at the boundary the adapter observes: the status code,
the raw body text (what a raised `requests.HTTPError` carries), and the
outcome of the external JSON parse of that body (`none` = parse failure). -/
structure HttpResponse where
  status : Nat
  text : String
  parsed : Option Json

/-- Python's whitespace test for `str.strip()`, on the ASCII range. -/
def isPySpace (c : Char) : Bool :=
  c == ' ' || c == '\t' || c == '\n' || c == '\r' || c == '\x0b' || c == '\x0c'

/-- Python `str.strip()`: drop leading and trailing whitespace. -/
def pyStrip (s : String) : String :=
  String.mk (((s.data.dropWhile isPySpace).reverse.dropWhile isPySpace).reverse)

/-- Python substring test (`needle in hay` for strings). -/
def strContains (hay needle : String) : Bool :=
  (List.range (hay.length + 1)).any fun i =>
    (hay.data.drop i).take needle.length == needle.data

/-- Python `len()` on a JSON-decoded value: defined for lists, strings and
dicts; `none` models the `TypeError` raised on numbers, booleans and `None`. -/
def pyLen : Json → Option Nat
  | .jstr s => some s.length
  | .jarr a => some a.length
  | .jobj m => some m.length
  | _ => none

/-- Python `k in v` for a string `k` and a JSON-decoded `v`: key membership
for dicts, element equality for lists (a `str` equals only an equal `str`),
substring test for strings, `TypeError` otherwise. -/
def pyContainsKey (v : Json) (k : String) : Except PyError Bool :=
  match v with
  | .jobj m => .ok ((m.lookup k).isSome)
  | .jarr a => .ok (a.any fun x => match x with | .jstr s => s == k | _ => false)
  | .jstr s => .ok (strContains s k)
  | _ => .error .typeError

/-- Python subscript `v[k]` with a string key: dict lookup (raising
`KeyError` when absent); `TypeError` on lists, strings and everything else. -/
def pyGetStr (v : Json) (k : String) : Except PyError Json :=
  match v with
  | .jobj m =>
    match m.lookup k with
    | some x => .ok x
    | none => .error (.keyError k)
  | _ => .error .typeError

/-- Python subscript `v[i]` with an integer index: list indexing, string
indexing (yielding a one-character string), `KeyError` on dicts (JSON object
keys are strings, so an integer key is absent), `TypeError` otherwise. -/
def pyGetIdx (v : Json) (i : Nat) : Except PyError Json :=
  match v with
  | .jarr a =>
    match a.get? i with
    | some x => .ok x
    | none => .error .indexError
  | .jstr s =>
    match s.data.get? i with
    | some c => .ok (.jstr (String.mk [c]))
    | none => .error .indexError
  | .jobj _ => .error (.keyErrorIdx i)
  | _ => .error .typeError

/-- Python `v.strip()`: defined on strings, `AttributeError` otherwise. -/
def pyStripAttr (v : Json) : Except PyError String :=
  match v with
  | .jstr s => .ok (pyStrip s)
  | _ => .error .attributeError

/-- `response.raise_for_status()` (source line 30): `requests` raises
`HTTPError` exactly for status codes in [400, 600); the error carries the
status and the response body. -/
def raise_for_status (r : HttpResponse) : Except PyError Unit :=
  if 400 ≤ r.status ∧ r.status < 600 then .error (.httpError r.status r.text)
  else .ok ()

/-- `response.json()` (source line 32): the external parse outcome, a
JSON decode error when the body is not parseable. -/
def responseJson (r : HttpResponse) : Except PyError Json :=
  match r.parsed with
  | some j => .ok j
  | none => .error .jsonError

/-- Source lines 30-36: everything `_call` does with the response.
Mirrors Python's evaluation order: `raise_for_status`, then the JSON parse,
then the short-circuiting condition
`"outputs" in response_json and len(response_json["outputs"]) > 0`,
then `response_json["outputs"][0]["text"].strip()` on success and the
fallback string on a false condition. -/
def handleResponse (r : HttpResponse) : Except PyError String :=
  match raise_for_status r with
  | .error e => .error e
  | .ok _ =>
    match responseJson r with
    | .error e => .error e
    | .ok rj =>
      match pyContainsKey rj "outputs" with
      | .error e => .error e
      | .ok c =>
        if c then
          match pyGetStr rj "outputs" with
          | .error e => .error e
          | .ok outs =>
            match pyLen outs with
            | none => .error .typeError
            | some n =>
              if n > 0 then
                match pyGetIdx outs 0 with
                | .error e => .error e
                | .ok e0 =>
                  match pyGetStr e0 "text" with
                  | .error e => .error e
                  | .ok t => pyStripAttr t
              else .ok "No text generated."
        else .ok "No text generated."

/-- The request assembled on source lines 22-29: headers
`Authorization: Bearer <auth_token>` and `Content-Type: application/json`,
body `{"prompt": prompt}` (braces in comment), `verify=False`.  `stop` and
`kwargs` are parameters of `_call` in scope here and are taken as arguments
to record that the assembled request does not depend on them. -/
def CustomMistralLLM.callRequest (cfg : Config) (prompt : String)
    (stop : Option (List String)) (kwargs : List (String × Json)) : HttpRequest :=
  ⟨cfg.endpoint,
   [("Authorization", "Bearer " ++ cfg.auth_token),
    ("Content-Type", "application/json")],
   Json.jobj [("prompt", Json.jstr prompt)],
   false⟩

/-- `CustomMistralLLM._call` (source lines 16-36).  The network is a function
`net` from the posted request to the response; a single POST is issued. -/
def CustomMistralLLM._call (cfg : Config) (prompt : String)
    (stop : Option (List String)) (kwargs : List (String × Json))
    (net : HttpRequest → HttpResponse) : Except PyError String :=
  handleResponse (net (CustomMistralLLM.callRequest cfg prompt stop kwargs))

/-- `CustomMistralLLM._identifying_params` (source lines 38-40): the mapping
with exactly the keys `endpoint` and `temperature`. -/
def CustomMistralLLM._identifying_params (cfg : Config) : List (String × Json) :=
  [("endpoint", Json.jstr cfg.endpoint), ("temperature", Json.jnum cfg.temperature)]

/-- A `generate` call as a state transition on the adapter object: the method
body (source lines 16-36) contains no assignment to `self`, so the post-state
configuration is the pre-state configuration. -/
def CustomMistralLLM.generate (cfg : Config) (prompt : String)
    (stop : Option (List String)) (kwargs : List (String × Json))
    (net : HttpRequest → HttpResponse) : Except PyError String × Config :=
  (CustomMistralLLM._call cfg prompt stop kwargs net, cfg)

/-- The arguments of one `generate` call, for iterating calls. -/
structure CallArgs where
  prompt : String
  stop : Option (List String)
  kwargs : List (String × Json)
  net : HttpRequest → HttpResponse

/-- The adapter state after a sequence of `generate` calls. -/
def runCalls (cfg : Config) : List CallArgs → Config
  | [] => cfg
  | a :: rest => runCalls (CustomMistralLLM.generate cfg a.prompt a.stop a.kwargs a.net).2 rest

/-! ## Claim theorems -/

/-- Claim C5: for every prompt, every stop list, and every set of extra
keyword arguments, the JSON body of the outgoing POST request is exactly the
one-key object mapping "prompt" to the prompt; neither `stop` nor
`temperature` nor any extra argument is serialized into the body. -/
theorem C5_body_is_only_prompt (cfg : Config) (prompt : String)
    (stop : Option (List String)) (kwargs : List (String × Json)) :
    (CustomMistralLLM.callRequest cfg prompt stop kwargs).body
      = Json.jobj [("prompt", Json.jstr prompt)] := rfl

/-- Claim C7: every call issues its POST with exactly the headers
`Authorization: Bearer <auth_token>` and `Content-Type: application/json`,
and with TLS certificate verification explicitly disabled. -/
theorem C7_headers_and_no_tls_verify (cfg : Config) (prompt : String)
    (stop : Option (List String)) (kwargs : List (String × Json)) :
    (CustomMistralLLM.callRequest cfg prompt stop kwargs).headers
      = [("Authorization", "Bearer " ++ cfg.auth_token),
         ("Content-Type", "application/json")]
    ∧ (CustomMistralLLM.callRequest cfg prompt stop kwargs).verify = false :=
  ⟨rfl, rfl⟩

/-- Claim C8: after any number of preceding `generate` calls, the
identifying-parameters accessor returns the mapping with exactly the keys
`endpoint` and `temperature` bound to the constructed values (the auth token
is not included), and the adapter state is unchanged. -/
theorem C8_identifying_params_stable (cfg : Config) (calls : List CallArgs) :
    CustomMistralLLM._identifying_params (runCalls cfg calls)
      = [("endpoint", Json.jstr cfg.endpoint),
         ("temperature", Json.jnum cfg.temperature)]
    ∧ runCalls cfg calls = cfg := by
  have h : ∀ c : Config, runCalls c calls = c := by
    induction calls with
    | nil => intro c; rfl
    | cons a rest ih => intro c; exact ih c
  exact ⟨by rw [h cfg]; rfl, h cfg⟩

/-- Claim C9: the string returned by `generate` is a function of the HTTP
response alone — two calls receiving the same response produce the same
result even if prompt, stop list and extra keyword arguments differ. -/
theorem C9_result_depends_only_on_response (cfg : Config)
    (p1 p2 : String) (s1 s2 : Option (List String))
    (k1 k2 : List (String × Json)) (net1 net2 : HttpRequest → HttpResponse)
    (h : net1 (CustomMistralLLM.callRequest cfg p1 s1 k1)
       = net2 (CustomMistralLLM.callRequest cfg p2 s2 k2)) :
    CustomMistralLLM._call cfg p1 s1 k1 net1
      = CustomMistralLLM._call cfg p2 s2 k2 net2 := by
  unfold CustomMistralLLM._call
  rw [h]

/-- Witness for C9 at concrete differing prompts, stop lists and kwargs with
an identical response. -/
theorem C9_witness :
    CustomMistralLLM._call ⟨"https://e", "t", 0.7⟩ "a" none []
      (fun _ => ⟨200, "", some (Json.jobj [])⟩)
      = CustomMistralLLM._call ⟨"https://e", "t", 0.7⟩ "b" (some ["\n"])
        [("top_k", Json.jnum 5)] (fun _ => ⟨200, "", some (Json.jobj [])⟩) :=
  C9_result_depends_only_on_response ⟨"https://e", "t", 0.7⟩ "a" "b" none
    (some ["\n"]) [] [("top_k", Json.jnum 5)] _ _ rfl

/-- Counterexample to claim C3 as stated: a 304 response (a non-2xx status)
does not raise; `raise_for_status` only raises for statuses in [400, 600),
so the body is parsed and the fallback string is returned. -/
theorem C3_counterexample :
    CustomMistralLLM._call ⟨"https://e", "t", 0.7⟩ "hi" none []
      (fun _ => ⟨304, "", some (Json.jobj [])⟩)
      = .ok "No text generated." := rfl

/-- Claim C3 (amended): for every HTTP response whose status is 4xx or 5xx,
`generate` raises an HTTP-error condition carrying the status code and body,
propagated to the caller without retry; the fallback string is never
returned in that case. -/
theorem C3_amended_http_error_raised (cfg : Config) (prompt : String)
    (stop : Option (List String)) (kwargs : List (String × Json))
    (net : HttpRequest → HttpResponse) (r : HttpResponse)
    (hnet : net (CustomMistralLLM.callRequest cfg prompt stop kwargs) = r)
    (h4 : 400 ≤ r.status) (h6 : r.status < 600) :
    CustomMistralLLM._call cfg prompt stop kwargs net
      = .error (.httpError r.status r.text) := by
  unfold CustomMistralLLM._call
  rw [hnet]
  unfold handleResponse raise_for_status
  rw [if_pos ⟨h4, h6⟩]

/-- Witness for the amended C3 at a concrete 500 response. -/
theorem C3_witness :
    CustomMistralLLM._call ⟨"https://e", "t", 0.7⟩ "hi" none []
      (fun _ => ⟨500, "internal error", none⟩)
      = .error (.httpError 500 "internal error") :=
  C3_amended_http_error_raised ⟨"https://e", "t", 0.7⟩ "hi" none [] _
    ⟨500, "internal error", none⟩ rfl (by decide) (by decide)

/-- Claim C1: for every 2xx response whose body parses to a JSON object with
a non-empty `outputs` sequence whose element 0 has a `text` field (a string,
as "text stripped of whitespace" presupposes), `generate` returns exactly
that text with leading and trailing whitespace stripped. -/
theorem C1_returns_stripped_text (cfg : Config) (prompt : String)
    (stop : Option (List String)) (kwargs : List (String × Json))
    (net : HttpRequest → HttpResponse) (r : HttpResponse)
    (m em : List (String × Json)) (rest : List Json) (s : String)
    (hnet : net (CustomMistralLLM.callRequest cfg prompt stop kwargs) = r)
    (h2 : 200 ≤ r.status) (h3 : r.status < 300)
    (hp : r.parsed = some (Json.jobj m))
    (ho : m.lookup "outputs" = some (Json.jarr (Json.jobj em :: rest)))
    (ht : em.lookup "text" = some (Json.jstr s)) :
    CustomMistralLLM._call cfg prompt stop kwargs net = .ok (pyStrip s) := by
  have hx : ¬(400 ≤ r.status ∧ r.status < 600) := by omega
  unfold CustomMistralLLM._call handleResponse raise_for_status responseJson
  rw [hnet, if_neg hx, hp]
  simp [pyContainsKey, pyGetStr, pyLen, pyGetIdx, pyStripAttr, ho, ht]

/-- Witness for C1: the spec's own example response. -/
theorem C1_witness :
    CustomMistralLLM._call ⟨"https://e", "t", 0.7⟩ "hi" none []
      (fun _ => ⟨200, "body", some (Json.jobj
        [("outputs", Json.jarr [Json.jobj [("text", Json.jstr "  hello world  ")]])])⟩)
      = .ok "hello world" := by
  have h := C1_returns_stripped_text ⟨"https://e", "t", 0.7⟩ "hi" none []
    (fun _ => ⟨200, "body", some (Json.jobj
      [("outputs", Json.jarr [Json.jobj [("text", Json.jstr "  hello world  ")]])])⟩)
    ⟨200, "body", some (Json.jobj
      [("outputs", Json.jarr [Json.jobj [("text", Json.jstr "  hello world  ")]])])⟩
    [("outputs", Json.jarr [Json.jobj [("text", Json.jstr "  hello world  ")]])]
    [("text", Json.jstr "  hello world  ")] [] "  hello world  "
    rfl (by decide) (by decide) rfl rfl rfl
  simpa using h

/-- Claim C4: for every 2xx response whose parsed JSON object has no
`outputs` key or has `outputs` equal to an empty sequence, `generate`
returns exactly the fallback string. -/
theorem C4_absent_or_empty_outputs_fallback (cfg : Config) (prompt : String)
    (stop : Option (List String)) (kwargs : List (String × Json))
    (net : HttpRequest → HttpResponse) (r : HttpResponse)
    (m : List (String × Json))
    (hnet : net (CustomMistralLLM.callRequest cfg prompt stop kwargs) = r)
    (h2 : 200 ≤ r.status) (h3 : r.status < 300)
    (hp : r.parsed = some (Json.jobj m))
    (ho : m.lookup "outputs" = none ∨ m.lookup "outputs" = some (Json.jarr [])) :
    CustomMistralLLM._call cfg prompt stop kwargs net = .ok "No text generated." := by
  have hx : ¬(400 ≤ r.status ∧ r.status < 600) := by omega
  unfold CustomMistralLLM._call handleResponse raise_for_status responseJson
  rw [hnet, if_neg hx, hp]
  rcases ho with ho | ho <;> simp [pyContainsKey, pyGetStr, pyLen, ho]

/-- Witness for C4 at the spec's two example responses. -/
theorem C4_witness :
    CustomMistralLLM._call ⟨"https://e", "t", 0.7⟩ "hi" none []
      (fun _ => ⟨200, "body", some (Json.jobj [])⟩) = .ok "No text generated."
    ∧ CustomMistralLLM._call ⟨"https://e", "t", 0.7⟩ "hi" none []
      (fun _ => ⟨200, "body", some (Json.jobj [("outputs", Json.jarr [])])⟩)
      = .ok "No text generated." :=
  ⟨C4_absent_or_empty_outputs_fallback ⟨"https://e", "t", 0.7⟩ "hi" none [] _
      ⟨200, "body", some (Json.jobj [])⟩ [] rfl (by decide) (by decide) rfl (Or.inl rfl),
   C4_absent_or_empty_outputs_fallback ⟨"https://e", "t", 0.7⟩ "hi" none [] _
      ⟨200, "body", some (Json.jobj [("outputs", Json.jarr [])])⟩
      [("outputs", Json.jarr [])] rfl (by decide) (by decide) rfl (Or.inr rfl)⟩

/-- Claim C6: for every 2xx response whose body is not parseable as JSON,
`generate` propagates a parse error; no fallback string is returned. -/
theorem C6_parse_error_propagated (cfg : Config) (prompt : String)
    (stop : Option (List String)) (kwargs : List (String × Json))
    (net : HttpRequest → HttpResponse) (r : HttpResponse)
    (hnet : net (CustomMistralLLM.callRequest cfg prompt stop kwargs) = r)
    (h2 : 200 ≤ r.status) (h3 : r.status < 300)
    (hp : r.parsed = none) :
    CustomMistralLLM._call cfg prompt stop kwargs net = .error .jsonError := by
  have hx : ¬(400 ≤ r.status ∧ r.status < 600) := by omega
  unfold CustomMistralLLM._call handleResponse raise_for_status responseJson
  rw [hnet, if_neg hx, hp]

/-- Witness for C6 at a concrete 200 response with an unparseable body. -/
theorem C6_witness :
    CustomMistralLLM._call ⟨"https://e", "t", 0.7⟩ "hi" none []
      (fun _ => ⟨200, "not json", none⟩) = .error .jsonError :=
  C6_parse_error_propagated ⟨"https://e", "t", 0.7⟩ "hi" none [] _
    ⟨200, "not json", none⟩ rfl (by decide) (by decide) rfl

/-- Claim C10: the non-emptiness test on `outputs` is a length check, so any
empty sized value — empty list, empty string, or empty object — produces the
fallback string, not only an empty list. -/
theorem C10_empty_sized_outputs_fallback (cfg : Config) (prompt : String)
    (stop : Option (List String)) (kwargs : List (String × Json))
    (net : HttpRequest → HttpResponse) (r : HttpResponse)
    (m : List (String × Json)) (v : Json)
    (hnet : net (CustomMistralLLM.callRequest cfg prompt stop kwargs) = r)
    (h2 : 200 ≤ r.status) (h3 : r.status < 300)
    (hp : r.parsed = some (Json.jobj m))
    (ho : m.lookup "outputs" = some v)
    (hv : v = Json.jarr [] ∨ v = Json.jstr "" ∨ v = Json.jobj []) :
    CustomMistralLLM._call cfg prompt stop kwargs net = .ok "No text generated." := by
  have hx : ¬(400 ≤ r.status ∧ r.status < 600) := by omega
  unfold CustomMistralLLM._call handleResponse raise_for_status responseJson
  rw [hnet, if_neg hx, hp]
  rcases hv with hv | hv | hv <;> subst hv <;>
    simp [pyContainsKey, pyGetStr, pyLen, ho]

/-- Witness for C10 at `outputs` bound to the empty string. -/
theorem C10_witness :
    CustomMistralLLM._call ⟨"https://e", "t", 0.7⟩ "hi" none []
      (fun _ => ⟨200, "body", some (Json.jobj [("outputs", Json.jstr "")])⟩)
      = .ok "No text generated." :=
  C10_empty_sized_outputs_fallback ⟨"https://e", "t", 0.7⟩ "hi" none [] _
    ⟨200, "body", some (Json.jobj [("outputs", Json.jstr "")])⟩
    [("outputs", Json.jstr "")] (Json.jstr "") rfl (by decide) (by decide)
    rfl rfl (Or.inr (Or.inl rfl))

/-- Counterexample to claim C2 as stated: a 200 response whose parsed body is
the object binding `outputs` to a one-element list whose element 0 is an
object without a `text` field.  The source evaluates
`response_json["outputs"][0]["text"]`, which raises `KeyError`; the fallback
string is not returned, contradicting "returns the literal string and never
raises". -/
theorem C2_counterexample :
    CustomMistralLLM._call ⟨"https://e", "t", 0.7⟩ "hi" none []
      (fun _ => ⟨200, "body", some (Json.jobj [("outputs", Json.jarr [Json.jobj []])])⟩)
      = .error (PyError.keyError "text")
    ∧ CustomMistralLLM._call ⟨"https://e", "t", 0.7⟩ "hi" none []
      (fun _ => ⟨200, "body", some (Json.jobj [("outputs", Json.jarr [Json.jobj []])])⟩)
      ≠ .ok "No text generated." := by
  refine ⟨by rfl, ?_⟩
  intro h
  exact Except.noConfusion h

/-- Claim C2 (amended): on a 2xx response parsed to a JSON object, the
fallback string is returned exactly when `outputs` is absent or an empty
sequence; when `outputs` is a non-empty sequence whose element 0 is an
object lacking a `text` field, `generate` instead raises a key-lookup
error — the silent fallback does not cover malformed shapes. -/
theorem C2_amended_fallback_or_key_error (cfg : Config) (prompt : String)
    (stop : Option (List String)) (kwargs : List (String × Json))
    (net : HttpRequest → HttpResponse) (r : HttpResponse)
    (m : List (String × Json))
    (hnet : net (CustomMistralLLM.callRequest cfg prompt stop kwargs) = r)
    (h2 : 200 ≤ r.status) (h3 : r.status < 300)
    (hp : r.parsed = some (Json.jobj m)) :
    ((m.lookup "outputs" = none ∨ m.lookup "outputs" = some (Json.jarr [])) →
      CustomMistralLLM._call cfg prompt stop kwargs net = .ok "No text generated.")
    ∧ (∀ em rest, m.lookup "outputs" = some (Json.jarr (Json.jobj em :: rest)) →
        em.lookup "text" = none →
        CustomMistralLLM._call cfg prompt stop kwargs net
          = .error (PyError.keyError "text")) := by
  have hx : ¬(400 ≤ r.status ∧ r.status < 600) := by omega
  constructor
  · intro ho
    unfold CustomMistralLLM._call handleResponse raise_for_status responseJson
    rw [hnet, if_neg hx, hp]
    rcases ho with ho | ho <;> simp [pyContainsKey, pyGetStr, pyLen, ho]
  · intro em rest ho ht
    unfold CustomMistralLLM._call handleResponse raise_for_status responseJson
    rw [hnet, if_neg hx, hp]
    simp [pyContainsKey, pyGetStr, pyLen, pyGetIdx, ho, ht]

/-- Witness for the amended C2: the key-lookup-error half at the
counterexample response, and the fallback half at an empty `outputs`. -/
theorem C2_witness :
    CustomMistralLLM._call ⟨"https://e", "t", 0.7⟩ "hi" none []
      (fun _ => ⟨200, "body", some (Json.jobj [("outputs", Json.jarr [Json.jobj []])])⟩)
      = .error (PyError.keyError "text") :=
  (C2_amended_fallback_or_key_error ⟨"https://e", "t", 0.7⟩ "hi" none [] _
    ⟨200, "body", some (Json.jobj [("outputs", Json.jarr [Json.jobj []])])⟩
    [("outputs", Json.jarr [Json.jobj []])] rfl (by decide) (by decide) rfl).2
    [] [] rfl rfl
